import Mathlib

/-!
Verification development for the Arturia KeyLab mkII FL Studio MIDI
processor (`arturia_processor.py`).  The Python module is shallowly
embedded: the processor's mutable attributes become an explicit state
record, calls into the FL Studio host API and into the other driver
modules (display, lights, encoders, navigation, scheduler) become either
read-only fields of a `Host` record or emitted `Act` values, and each
`On...` handler becomes a pure Lean function from the pre-state to the
post-state together with the list of emitted actions.

Conventions used throughout:
* Python integers are `Int` (unbounded, signed); the button-modifier
  bitmask, which is only ever built from nonnegative mask constants, is a
  `Nat` so that the bitwise operations stay executable.
* Python floats are modelled as rationals (`ℚ`); float rounding is not
  relevant to any statement proved here.
* Host mutations performed by a handler are emitted as actions; Host
  fields that the same dispatch re-reads after writing them
  (pattern number, selected channel, playlist track names, pattern
  names) are additionally threaded through the `Host` record.
* Events are immutable except for the `handled` marker; no Python
  handler in the module writes any other event attribute, so only the
  three message-class handlers return the (possibly updated) event.
-/

/-- Commands passed to `transport.globalTransport` (constants of the host
`midi` module, which is not part of this repository; only their identity
matters, never their numeric value). -/
inductive FPT where
  | Jog | Jog2 | HZoomJog | VZoomJog | MixerWindowJog | LoopRecord
  | Play | Undo | PunchIn | PunchOut | Metronome | StripJog
  deriving DecidableEq

/-- Second argument of `transport.globalTransport`: either a signed delta
or (per the FL API idiom used in the source) the command constant itself. -/
inductive GTArg where
  | int (i : Int)
  | fpt (f : FPT)
  deriving DecidableEq

/-- Host windows referenced through the `midi.wid...` constants. -/
inductive Window where
  | pianoRoll | playlist | mixer | channelRack
  deriving DecidableEq

/-- Logical LED identifiers (`ArturiaLights.ID_...`). -/
inductive LightId where
  | globalIn | navigationLeft | navigationRight
  deriving DecidableEq

/-- LED values: `LED_ON`, `LED_OFF`, or `AsOnOffByte(b)`. -/
inductive LedVal where
  | on | off | onOff (b : Bool)
  deriving DecidableEq

/-- Inter-script button transition payloads
(`INTER_SCRIPT_DATA1_BTN_DOWN_CMD` / `..._UP_CMD`). -/
inductive BtnMsg where
  | down | up
  deriving DecidableEq

/-- Identity of the long-press callback closed over by
`_detect_long_press`'s scheduled task, one per call site. -/
inductive LongCb where
  | undoLong | trackRecordLong | navLeftLong | navRightLong
  | bankNextLong | bankPrevLong
  deriving DecidableEq

/-- Externally visible effects of one handler invocation, in program
order.  Each constructor names the host / collaborator call it models. -/
inductive Act where
  | globalTransport (cmd : FPT) (val : GTArg) (flags : Option Int)
  | continuousMove (dir : Int) (cmd : Int)
  | transportRecord
  | transportStop
  | setLoopMode
  | setSongPos (pos : ℚ)
  | metronomeReset
  | moveJog (delta : Int)
  | uiEscape
  | uiCut
  | uiCopy
  | uiPaste
  | uiSelectWindow (backward : Bool)
  | showWindow (w : Window)
  | hideWindow (w : Window)
  | setFocused (w : Window)
  | setHintMsg (msg : String)
  | jumpToPattern (index : Int)
  | selectPattern (index : Int) (value : Int)
  | setPatternName (index : Int) (name : String)
  | setPatternColor (index : Int) (color : Int)
  | setTrackName (index : Int) (name : String)
  | soloTrack (index : Int)
  | muteTrack (index : Int)
  | soloChannel (index : Int)
  | muteChannel (index : Int)
  | selectAllChannels
  | deselectAllChannels
  | selectOneChannel (index : Int)
  | selectChannel (index : Int) (value : Int)
  | processSliderInput (index : Int) (value : Int)
  | processKnobInput (index : Int) (delta : Int)
  | nextControlsPage
  | prevControlsPage
  | toggleKnobMode
  | toggleCurrentMode
  | processBankSelection (bank : Int)
  | startOrEndSliderInput
  | navUpdateValue (delta : Int)
  | navPrevMode
  | navNextMode
  | navKnobPressed
  | setLight (id : LightId) (v : LedVal)
  | interScript (msg : BtnMsg) (controlNum : Int)
  | scheduleTask (task : Int) (delay : Int) (cb : LongCb)
  | cancelTask (task : Int)
  | setPageLines (page : String) (line1 : String) (line2 : String)
  | setActivePage (page : String) (expires : Option Int)
  deriving DecidableEq

/-- Raw MIDI event as received by `ProcessEvent`; mirrors the fields the
module reads (`midiId`, `controlNum`, `controlVal`, `status`,
`pmeFlags`) plus the mutable `handled` marker. -/
structure MidiEvent where
  midiId : Int
  controlNum : Int
  controlVal : Int
  status : Int
  pmeFlags : Int
  handled : Bool
  deriving DecidableEq

/-- Read-only snapshot of host state queried by the handlers, together
with the fields a dispatch re-reads after writing (those are updated in
place by the embedding).  `isTrackSolo` / `isTrackMuted` model the host's
answer at the moment of the query, which in the source happens right
after the corresponding toggle call. -/
structure Host where
  patternCount : Int
  patternNumber : Int
  patternName : Int → String
  patternLength : Int → Int
  channelCount : Int
  selectedChannel : Int
  channelName : Int → String
  channelColor : Int → Int
  trackCount : Int
  trackName : Int → String
  isTrackSolo : Int → Int
  isTrackMuted : Int → Int
  loopMode : Int
  songPos : ℚ
  visible : Window → Bool
  focused : Window → Bool
  selectionStart : Int
  selectionEnd : Int
  navMode : String

/-- Mutable attributes of `ArturiaMidiProcessor`. -/
structure ProcState where
  button_mode : Nat
  button_hold_action_committed : Bool
  pattern_mode_down : Bool
  playlist_track_updated : Bool
  is_pad_recording : Bool
  punched : Bool
  current_playlist_track_index : Int
  long_press_tasks : List (Int × Int)
  deriving DecidableEq

/-- Combined world threaded through the handlers. -/
structure W where
  host : Host
  st : ProcState

/-- Static configuration: the host script version, the `config` module
flags, the keyboard variant flag, and the scheduler behaviour
(`newTask` is the handle `ScheduleTask` returns, `cancelOk` is the
success of `CancelTask` on a handle). -/
structure Env where
  scriptVersion : Int
  pianoRollFocusCfg : Bool
  controlsHintsCfg : Bool
  essentialKeyboard : Bool
  newTask : Int
  cancelOk : Int → Bool
  fromMIDI_Max : Int

/-- Event code indicating a stop event (`SS_STOP`). -/
def SS_STOP : Int := 0
/-- Event code indicating a start event (`SS_START`). -/
def SS_START : Int := 2

/-- Bitmask for the loop button. -/
def LOOP_BUTTON_MASK : Nat := 0x1
/-- Bitmask for the record button. -/
def REC_BUTTON_MASK : Nat := 0x2
/-- Bitmask for the play button. -/
def PLAY_BUTTON_MASK : Nat := 0x4
/-- Bitmask for the stop button. -/
def STOP_BUTTON_MASK : Nat := 0x8
/-- Bitmask for the left nav arrow. -/
def LEFT_BUTTON_MASK : Nat := 0x16
/-- Bitmask for the right nav arrow. -/
def RIGHT_BUTTON_MASK : Nat := 0x32

/-- Models the Python idiom `m &= ~mask` on a nonnegative int: clears
from `m` every bit set in `mask`.  Since `m &&& mask` has only bits that
are set in `m`, the subtraction clears exactly those bits. -/
def andNot (m mask : Nat) : Nat := m - (m &&& mask)

/-- Python `range(a, b)` as a list of `Int`. -/
def pyRange (a b : Int) : List Int :=
  (List.range (b - a).toNat).map (fun (k : Nat) => a + (k : Int))

/-- Python `int()` truncation of a real (here rational) toward zero. -/
def pyint (q : ℚ) : Int := if 0 ≤ q then ⌊q⌋ else ⌈q⌉

/-- Python `s.startswith(pre)`; character-list implementation so that
proofs can evaluate it. -/
def pyStartsWith (s pre : String) : Bool := pre.data.isPrefixOf s.data

/-- Python slicing `s[n:]` for nonnegative `n`; character-list
implementation so that proofs can evaluate it. -/
def pyDrop (s : String) (n : Nat) : String := ⟨s.data.drop n⟩

/-- Python dict assignment `m[k] = v` on an association list. -/
def assocSet (m : List (Int × Int)) (k v : Int) : List (Int × Int) :=
  match m with
  | [] => [(k, v)]
  | (k', v') :: rest =>
    if k' = k then (k, v) :: rest else (k', v') :: assocSet rest k v

/-- Python dict lookup `m[k]` / membership on an association list. -/
def assocLookup (m : List (Int × Int)) (k : Int) : Option Int :=
  match m with
  | [] => none
  | (k', v') :: rest => if k' = k then some v' else assocLookup rest k

/-- Static method `_is_pressed`: the event carries a nonzero value. -/
def is_pressed (ev : MidiEvent) : Bool := ev.controlVal != 0

/-- The `clip` helper: `max(low, min(high, x))`.  The source applies it
to ints and floats alike, hence the generic linear order. -/
def clip {α : Type} [LinearOrder α] (low high x : α) : α :=
  max low (min high x)

/-- The `circular` helper (wrap-around instead of clamping). -/
def circular (low high x : Int) : Int :=
  if x > high then low + (x - high - 1)
  else if x < low then high - (low - x - 1)
  else x

/-- Static method `_get_knob_delta`: `val if val < 64 else 64 - val`. -/
def get_knob_delta (val : Int) : Int :=
  if val < 64 then val else 64 - val

/-- Helper `_strip_pattern_name`: drop a leading `"* "` marker. -/
def strip_pattern_name (name : String) : String :=
  if pyStartsWith name "* " then pyDrop name 2 else name

/-- Helper `_display_hint(line1=None, line2=None)`: omitted lines become
a single space; the hint page lines are set and the page is activated
with a 1500 ms expiry. -/
def display_hint (line1 line2 : Option String) : List Act :=
  let l1 := line1.getD " "
  let l2 := line2.getD " "
  [Act.setPageLines "hint" l1 l2, Act.setActivePage "hint" (some 1500)]

/-- Helper `_display_playlist_track_op_hint(title)`. -/
def display_playlist_track_op_hint (h : Host) (s : ProcState) (title : String) : List Act :=
  let track_name := strip_pattern_name (h.trackName s.current_playlist_track_index)
  display_hint (some title)
    (some (toString s.current_playlist_track_index ++ ": " ++ track_name))

/-- Helper `_display_playlist_track_hint`. -/
def display_playlist_track_hint (h : Host) (s : ProcState) : List Act :=
  display_playlist_track_op_hint h s "Playlist Track"

/-- Helper `_show_and_focus(window)`. -/
def show_and_focus (h : Host) (wd : Window) : List Act :=
  (if h.visible wd then [] else [Act.showWindow wd]) ++
  (if h.focused wd then [] else [Act.setFocused wd])

/-- Helper `_toggle_visibility(window)`; returns the value the source
returns (whether the window is now visible) with the actions. -/
def toggle_visibility (h : Host) (wd : Window) : Bool × List Act :=
  if !(h.visible wd) then (true, [Act.showWindow wd, Act.setFocused wd])
  else (false, [Act.hideWindow wd])

/-- Handler `OnUpdateTimeMarker(delta, power=0)`. -/
def OnUpdateTimeMarker (h : Host) (delta : Int) (power : Int) : List Act :=
  let num_beats := h.patternLength h.patternNumber
  let step_size : ℚ := 1 / (num_beats : ℚ)
  let pos := h.songPos
  let d : ℚ := (delta : ℚ) * (2 : ℚ) ^ power
  [Act.setSongPos (clip 0 1 (pos + step_size * d))]

/-- Helper `_horizontal_scroll(delta, power=0)`. -/
def horizontal_scroll (h : Host) (delta : Int) (power : Int) : List Act :=
  if h.focused Window.pianoRoll then OnUpdateTimeMarker h delta power
  else if h.focused Window.playlist then OnUpdateTimeMarker h delta power
  else [Act.globalTransport FPT.Jog (GTArg.int delta) none]

/-- Helper `_select_pattern_named(name)`: jump to the first pattern whose
stripped name matches. -/
def select_pattern_named (h : Host) (name : String) : Host × List Act :=
  match (pyRange 1 (h.patternCount + 1)).find?
      (fun i => strip_pattern_name (h.patternName i) == name) with
  | some i => ({h with patternNumber := i}, [Act.jumpToPattern i])
  | none => (h, [])

/-- Loop body of `_deselect_all_playlist_track`, one iteration per
index, threading the host's track names. -/
def deselect_tracks (h : Host) : List Int → Host × List Act
  | [] => (h, [])
  | i :: rest =>
    let nm := h.trackName i
    if pyStartsWith nm "* " then
      let h' := {h with trackName := fun j => if j = i then pyDrop nm 2 else h.trackName j}
      let r := deselect_tracks h' rest
      (r.1, Act.setTrackName i (pyDrop nm 2) :: r.2)
    else deselect_tracks h rest

/-- Helper `_deselect_all_playlist_track`: strip the `"* "` marker from
every playlist track carrying it (indices `range(1, trackCount)`). -/
def deselect_all_playlist_track (h : Host) : Host × List Act :=
  deselect_tracks h (pyRange 1 h.trackCount)

/-- Helper `_select_playlist_track(track_index)`. -/
def select_playlist_track (h : Host) (s : ProcState) (track_index : Int) :
    Host × ProcState × List Act :=
  let name := h.trackName track_index
  let s' := {s with current_playlist_track_index := track_index}
  if pyStartsWith name "* " then (h, s', [])
  else
    let r1 := deselect_all_playlist_track h
    let r2 := select_pattern_named r1.1 name
    let h3 := {r2.1 with trackName := fun j =>
      if j = track_index then "* " ++ name else r2.1.trackName j}
    (h3, s', r1.2 ++ r2.2 ++ [Act.setTrackName track_index ("* " ++ name)])

/-- Helper `_select_playlist_track_named(name)`. -/
def select_playlist_track_named (h : Host) (s : ProcState) (name : String) :
    Host × ProcState × List Act :=
  match (pyRange 1 h.trackCount).find?
      (fun i => strip_pattern_name (h.trackName i) == name) with
  | some i => select_playlist_track h s i
  | none => (h, s, [])

/-- Helper `_jump_and_sync_select_pattern(index)`. -/
def jump_and_sync_select_pattern (h : Host) (s : ProcState) (index : Int) :
    Host × ProcState × List Act :=
  let h0 := {h with patternNumber := index}
  let name := strip_pattern_name (h0.patternName index)
  let r := select_playlist_track_named h0 s name
  (r.1, r.2.1, Act.jumpToPattern index :: r.2.2)

/-- Helper `_change_playlist_track(delta)`. -/
def change_playlist_track (h : Host) (s : ProcState) (delta : Int) :
    Host × ProcState × List Act :=
  let next := s.current_playlist_track_index + delta
  let r :=
    if 0 < next ∧ next ≤ h.trackCount then select_playlist_track h s next
    else (h, s, ([] : List Act))
  let a2 := display_playlist_track_hint r.1 r.2.1
  (r.1, {r.2.1 with playlist_track_updated := true}, r.2.2 ++ a2)

/-- Handler `OnUpdatePattern(delta)` (navigation-mode turn handler). -/
def OnUpdatePattern (h : Host) (s : ProcState) (delta : Int) :
    Host × ProcState × List Act :=
  let index := clip 1 h.patternCount (h.patternNumber + delta)
  jump_and_sync_select_pattern h s index

/-- Helper `_select_one_channel(index)`. -/
def select_one_channel (env : Env) (h : Host) (index : Int) : Host × List Act :=
  let h1 := {h with selectedChannel := index}
  let a1 :=
    if env.scriptVersion ≥ 8 then [Act.selectOneChannel index]
    else [Act.deselectAllChannels, Act.selectChannel index 1]
  if env.controlsHintsCfg then
    (h1, a1 ++ [Act.setHintMsg ("[" ++ toString (h1.selectedChannel + 1) ++ ":" ++
        toString h1.patternNumber ++ "] " ++ h1.channelName h1.selectedChannel)])
  else (h1, a1)

/-- Handler `OnUpdateChannel(delta)` (navigation-mode turn handler). -/
def OnUpdateChannel (env : Env) (h : Host) (delta : Int) : Host × List Act :=
  let index := clip 0 (h.channelCount - 1) (h.selectedChannel + delta)
  select_one_channel env h index

/-- Handler `OnUpdatePlaylistTrack(delta)` (navigation-mode turn
handler); the source clamps with bare `max`/`min` here. -/
def OnUpdatePlaylistTrack (h : Host) (s : ProcState) (delta : Int) :
    Host × ProcState × List Act :=
  let track := max 1 (min h.trackCount (s.current_playlist_track_index + delta))
  select_playlist_track h s track

/-- Helper `_detect_long_press(event, short_fn, long_fn)`.  `ScheduleTask`
is modelled by the `Env` scheduler fields and the scheduled closure by
its `LongCb` tag; `short_fn` is the synchronous short-press
continuation. -/
def detect_long_press (env : Env) (w : W) (ev : MidiEvent) (cb : LongCb)
    (short_fn : W → W × List Act) : W × List Act :=
  let control_id := ev.controlNum
  if is_pressed ev then
    let tasks := assocSet w.st.long_press_tasks control_id env.newTask
    ({w with st := {w.st with long_press_tasks := tasks}},
     [Act.scheduleTask env.newTask 450 cb])
  else
    match assocLookup w.st.long_press_tasks control_id with
    | some t =>
      if env.cancelOk t then
        let r := short_fn w
        (r.1, Act.cancelTask t :: r.2)
      else (w, [Act.cancelTask t])
    | none => (w, [])

/-- Handler `OnTransportsBack` (control 91). -/
def OnTransportsBack (w : W) (ev : MidiEvent) : W × List Act :=
  if is_pressed ev then
    (w, [Act.continuousMove (-1) SS_START, Act.setActivePage "Time Marker" none])
  else
    (w, [Act.continuousMove (-1) SS_STOP, Act.setActivePage "main" none])

/-- Handler `OnTransportsForward` (control 92). -/
def OnTransportsForward (w : W) (ev : MidiEvent) : W × List Act :=
  if is_pressed ev then
    (w, [Act.continuousMove 1 SS_START, Act.setActivePage "Time Marker" none])
  else
    (w, [Act.continuousMove 1 SS_STOP, Act.setActivePage "main" none])

/-- Handler `OnTransportsStop` (control 93). -/
def OnTransportsStop (w : W) (ev : MidiEvent) : W × List Act :=
  if is_pressed ev then
    ({w with st := {w.st with
        button_mode := w.st.button_mode ||| STOP_BUTTON_MASK,
        button_hold_action_committed := false}},
     [Act.interScript BtnMsg.down ev.controlNum])
  else
    let s1 := {w.st with button_mode := andNot w.st.button_mode STOP_BUTTON_MASK}
    let mid :=
      if w.st.button_hold_action_committed then []
      else [Act.metronomeReset, Act.transportStop]
    ({w with st := s1}, mid ++ [Act.interScript BtnMsg.up ev.controlNum])

/-- Handler `OnTransportsPausePlay` (control 94). -/
def OnTransportsPausePlay (env : Env) (w : W) (ev : MidiEvent) : W × List Act :=
  if is_pressed ev then
    ({w with st := {w.st with
        button_mode := w.st.button_mode ||| PLAY_BUTTON_MASK,
        button_hold_action_committed := false}}, [])
  else
    let s1 := {w.st with button_mode := andNot w.st.button_mode PLAY_BUTTON_MASK}
    if w.st.button_hold_action_committed then ({w with st := s1}, [])
    else
      let song_mode := w.host.loopMode == 1
      let focus :=
        if env.pianoRollFocusCfg then
          if song_mode then show_and_focus w.host Window.playlist
          else show_and_focus w.host Window.pianoRoll
        else []
      ({w with st := s1},
       focus ++ [Act.globalTransport FPT.Play (GTArg.fpt FPT.Play) (some ev.pmeFlags)])

/-- Handler `OnTransportsRecord` (control 95). -/
def OnTransportsRecord (w : W) (ev : MidiEvent) : W × List Act :=
  if is_pressed ev then
    ({w with st := {w.st with
        button_mode := w.st.button_mode ||| REC_BUTTON_MASK,
        button_hold_action_committed := false}},
     [Act.interScript BtnMsg.down ev.controlNum])
  else
    let s1 := {w.st with button_mode := andNot w.st.button_mode REC_BUTTON_MASK}
    let tail :=
      if w.st.button_hold_action_committed then []
      else if w.st.is_pad_recording then []
      else [Act.transportRecord]
    ({w with st := s1}, Act.interScript BtnMsg.up ev.controlNum :: tail)

/-- Handler `OnTransportsLoop` (control 86). -/
def OnTransportsLoop (w : W) (ev : MidiEvent) : W × List Act :=
  if is_pressed ev then
    ({w with st := {w.st with
        button_mode := w.st.button_mode ||| LOOP_BUTTON_MASK,
        button_hold_action_committed := false}}, [])
  else
    let s1 := {w.st with button_mode := andNot w.st.button_mode LOOP_BUTTON_MASK}
    if w.st.button_hold_action_committed then ({w with st := s1}, [])
    else
      ({w with st := s1},
       [Act.globalTransport FPT.LoopRecord (GTArg.fpt FPT.LoopRecord) (some ev.pmeFlags)])

/-- Handler `OnGlobalSave` (control 80). -/
def OnGlobalSave (w : W) (ev : MidiEvent) : W × List Act :=
  if is_pressed ev then
    ({w with st := {w.st with pattern_mode_down := true, playlist_track_updated := false}}, [])
  else
    let s1 := {w.st with pattern_mode_down := false}
    if !w.st.playlist_track_updated then ({w with st := s1}, [Act.setLoopMode])
    else ({w with st := s1}, [])

/-- Handler `OnGlobalOut` (control 88, press-only). -/
def OnGlobalOut (w : W) (ev : MidiEvent) : W × List Act :=
  ({w with st := {w.st with punched := false}},
   [Act.globalTransport FPT.PunchOut (GTArg.fpt FPT.PunchOut) (some ev.pmeFlags)] ++
     (if w.host.selectionStart < 0 then [Act.setLight LightId.globalIn LedVal.off] else []))

/-- Handler `OnGlobalIn` (control 87, press-only). -/
def OnGlobalIn (env : Env) (w : W) (ev : MidiEvent) : W × List Act :=
  if env.essentialKeyboard ∧ w.st.punched then OnGlobalOut w ev
  else
    ({w with st := {w.st with punched := true}},
     [Act.globalTransport FPT.PunchIn (GTArg.fpt FPT.PunchIn) (some ev.pmeFlags),
      Act.setLight LightId.globalIn LedVal.on])

/-- Handler `OnGlobalMetro` (control 89, press-only). -/
def OnGlobalMetro (w : W) (ev : MidiEvent) : W × List Act :=
  (w, [Act.globalTransport FPT.Metronome (GTArg.fpt FPT.Metronome) (some ev.pmeFlags)])

/-- Handler `OnGlobalUndoShortPress`. -/
def OnGlobalUndoShortPress (ev : MidiEvent) (w : W) : W × List Act :=
  (w, [Act.globalTransport FPT.Undo (GTArg.fpt FPT.Undo) (some ev.pmeFlags)])

/-- Handler `OnGlobalUndo` (control 81). -/
def OnGlobalUndo (env : Env) (w : W) (ev : MidiEvent) : W × List Act :=
  detect_long_press env w ev LongCb.undoLong (OnGlobalUndoShortPress ev)

/-- Handler `OnTrackSolo` (controls 8-15, press-only). -/
def OnTrackSolo (w : W) (ev : MidiEvent) : W × List Act :=
  let playlist_mode := w.host.navMode == "Playlist Track"
  if w.st.pattern_mode_down ∨ playlist_mode then
    let status := w.host.isTrackSolo w.st.current_playlist_track_index
    ({w with st := {w.st with playlist_track_updated := true}},
     Act.soloTrack w.st.current_playlist_track_index ::
       display_playlist_track_op_hint w.host w.st ("Solo Playlist: " ++ toString status))
  else (w, [Act.soloChannel w.host.selectedChannel])

/-- Handler `OnTrackMute` (controls 16-23, press-only). -/
def OnTrackMute (w : W) (ev : MidiEvent) : W × List Act :=
  let playlist_mode := w.host.navMode == "Playlist Track"
  if w.st.pattern_mode_down ∨ playlist_mode then
    let status := w.host.isTrackMuted w.st.current_playlist_track_index
    ({w with st := {w.st with playlist_track_updated := true}},
     Act.muteTrack w.st.current_playlist_track_index ::
       display_playlist_track_op_hint w.host w.st ("Mute Playlist: " ++ toString status))
  else (w, [Act.muteChannel w.host.selectedChannel])

/-- Generator `_all_pattern_names`: the stripped pattern names, as the
list of items the generator will yield. -/
def all_pattern_names (h : Host) : List String :=
  (pyRange 1 (h.patternCount + 1)).map (fun i => strip_pattern_name (h.patternName i))

/-- Python `x in gen` on a generator: items are consumed until a match;
returns the membership answer and the items left in the generator. -/
def genContains (l : List String) (x : String) : Bool × List String :=
  match l with
  | [] => (false, [])
  | a :: rest => if a == x then (true, rest) else genContains rest x

/-- The `for` loop of `_next_pattern_name`: tries `name #i` for each `i`,
each membership test consuming more of the (already partially consumed)
`_all_pattern_names` generator. -/
def find_suggested (name : String) : List Int → List String → Option String
  | [], _ => none
  | i :: rest, gen =>
    let r := genContains gen (name ++ " #" ++ toString i)
    if r.1 then find_suggested name rest r.2
    else some (name ++ " #" ++ toString i)

/-- Helper `_next_pattern_name`; note that in the source
`pattern_names` is a generator, so every membership test consumes it
further - the embedding mirrors that. -/
def next_pattern_name (h : Host) : String :=
  let gen := all_pattern_names h
  let name := strip_pattern_name (h.channelName h.selectedChannel)
  let r := genContains gen name
  if !r.1 then name
  else
    match find_suggested name (pyRange 1 (h.patternCount + 1)) r.2 with
    | some s => s
    | none => name ++ " - " ++ toString (h.patternCount + 1)

/-- Helper `_new_empty_pattern`.  The host-side growth of
`patternCount` is not modelled because no later read in the same
dispatch depends on it. -/
def new_empty_pattern (h : Host) : Host × List Act :=
  let pattern_id := h.patternCount + 1
  let pattern_name := next_pattern_name h
  let color := h.channelColor h.selectedChannel
  let h1 := {h with
    patternName := fun j => if j = pattern_id then pattern_name else h.patternName j,
    patternNumber := pattern_id}
  (h1, [Act.setPatternName pattern_id pattern_name,
        Act.setPatternColor pattern_id color,
        Act.jumpToPattern pattern_id,
        Act.selectPattern pattern_id 1])

/-- Helper `_new_pattern_from_selected`. -/
def new_pattern_from_selected (env : Env) (h : Host) : Host × List Act :=
  let a0 := show_and_focus h Window.pianoRoll
  let r := new_empty_pattern h
  (r.1, a0 ++ [Act.uiCopy] ++ r.2 ++
    [Act.uiPaste,
     Act.globalTransport FPT.StripJog (GTArg.int (-env.fromMIDI_Max)) none,
     Act.globalTransport FPT.PunchOut (GTArg.fpt FPT.PunchOut) none])

/-- Helper `_clone_active_pattern`. -/
def clone_active_pattern (env : Env) (h : Host) : Host × List Act :=
  let active_channel := h.selectedChannel
  let a0 := show_and_focus h Window.channelRack
  let r := new_empty_pattern h
  let r2 := select_one_channel env r.1 active_channel
  (r2.1, a0 ++ [Act.selectAllChannels, Act.uiCopy] ++ r.2 ++ [Act.uiPaste] ++ r2.2)

/-- Handler `OnTrackRecordShortPress`. -/
def OnTrackRecordShortPress (env : Env) (w : W) : W × List Act :=
  if w.host.selectionEnd > w.host.selectionStart then
    let r := new_pattern_from_selected env w.host
    ({w with host := r.1}, r.2)
  else
    let r := new_empty_pattern w.host
    ({w with host := r.1}, r.2)

/-- Handler `OnTrackRecord` (controls 0-7). -/
def OnTrackRecord (env : Env) (w : W) (ev : MidiEvent) : W × List Act :=
  detect_long_press env w ev LongCb.trackRecordLong (OnTrackRecordShortPress env)

/-- Handler `OnTrackRead` (control 74, press-only). -/
def OnTrackRead (w : W) (ev : MidiEvent) : W × List Act :=
  if !w.st.pattern_mode_down then
    let prev := w.host.patternNumber - 1
    if prev ≤ 0 then (w, [])
    else
      let r := jump_and_sync_select_pattern w.host w.st prev
      ({host := r.1, st := r.2.1}, r.2.2)
  else
    let r := change_playlist_track w.host w.st (-1)
    ({host := r.1, st := r.2.1}, r.2.2)

/-- Handler `OnTrackWrite` (control 75, press-only). -/
def OnTrackWrite (w : W) (ev : MidiEvent) : W × List Act :=
  if !w.st.pattern_mode_down then
    let next := w.host.patternNumber + 1
    if next > w.host.patternCount then (w, [])
    else
      let r := jump_and_sync_select_pattern w.host w.st next
      ({host := r.1, st := r.2.1}, r.2.2)
  else
    let r := change_playlist_track w.host w.st 1
    ({host := r.1, st := r.2.1}, r.2.2)

/-- Handler `OnNavigationLeftShortPress`. -/
def OnNavigationLeftShortPress (w : W) : W × List Act :=
  if w.st.button_hold_action_committed then (w, [])
  else (w, [Act.navPrevMode])

/-- Handler `OnNavigationRightShortPress`. -/
def OnNavigationRightShortPress (w : W) : W × List Act :=
  if w.st.button_hold_action_committed then (w, [])
  else (w, [Act.navNextMode])

/-- Handler `OnNavigationLeft` (control 98). -/
def OnNavigationLeft (env : Env) (w : W) (ev : MidiEvent) : W × List Act :=
  if is_pressed ev then
    if w.st.button_mode &&& RIGHT_BUTTON_MASK ≠ 0 then
      ({w with st := {w.st with button_hold_action_committed := true}}, [Act.uiEscape])
    else
      let w1 := {w with st := {w.st with
        button_mode := w.st.button_mode ||| LEFT_BUTTON_MASK,
        button_hold_action_committed := false}}
      detect_long_press env w1 ev LongCb.navLeftLong OnNavigationLeftShortPress
  else
    let w1 := {w with st := {w.st with
      button_mode := andNot w.st.button_mode LEFT_BUTTON_MASK}}
    detect_long_press env w1 ev LongCb.navLeftLong OnNavigationLeftShortPress

/-- Handler `OnNavigationRight` (control 99). -/
def OnNavigationRight (env : Env) (w : W) (ev : MidiEvent) : W × List Act :=
  if is_pressed ev then
    if w.st.button_mode &&& LEFT_BUTTON_MASK ≠ 0 then
      ({w with st := {w.st with button_hold_action_committed := true}}, [Act.uiEscape])
    else
      let w1 := {w with st := {w.st with
        button_mode := w.st.button_mode ||| RIGHT_BUTTON_MASK,
        button_hold_action_committed := false}}
      detect_long_press env w1 ev LongCb.navRightLong OnNavigationRightShortPress
  else
    let w1 := {w with st := {w.st with
      button_mode := andNot w.st.button_mode RIGHT_BUTTON_MASK}}
    detect_long_press env w1 ev LongCb.navRightLong OnNavigationRightShortPress

/-- Handler `OnNavigationKnobPressed` (control 84, press-only). -/
def OnNavigationKnobPressed (w : W) (ev : MidiEvent) : W × List Act :=
  (w, [Act.navKnobPressed])

/-- Handler `OnBankNext` (control 49). -/
def OnBankNext (env : Env) (w : W) (ev : MidiEvent) : W × List Act :=
  detect_long_press env w ev LongCb.bankNextLong (fun w0 => (w0, [Act.nextControlsPage]))

/-- Handler `OnBankPrev` (control 48). -/
def OnBankPrev (env : Env) (w : W) (ev : MidiEvent) : W × List Act :=
  detect_long_press env w ev LongCb.bankPrevLong (fun w0 => (w0, [Act.prevControlsPage]))

/-- Handler `OnLivePart1` (control 47, press-only). -/
def OnLivePart1 (w : W) (ev : MidiEvent) : W × List Act :=
  (w, [Act.toggleKnobMode])

/-- Handler `OnLivePart2` (control 46, press-only). -/
def OnLivePart2 (w : W) (ev : MidiEvent) : W × List Act :=
  (w, [Act.toggleCurrentMode])

/-- Handler `OnBankSelect` (controls 24-31, press-only). -/
def OnBankSelect (w : W) (ev : MidiEvent) : W × List Act :=
  (w, [Act.processBankSelection (ev.controlNum - 24)])

/-- Handler `OnStartOrEndSliderEvent` (controls 104-111). -/
def OnStartOrEndSliderEvent (w : W) (ev : MidiEvent) : W × List Act :=
  (w, [Act.startOrEndSliderInput])

/-- Handler `OnNavigationKnobTurned` (knob control 60): the main
encoder.  Priority order as in the source: pattern-mode (Save held)
first, then a nonzero modifier mask compared for equality against each
button constant, then the default route to the navigation mode. -/
def OnNavigationKnobTurned (w : W) (ev : MidiEvent) : W × List Act :=
  let delta := get_knob_delta ev.controlVal
  if w.st.pattern_mode_down then
    let r := change_playlist_track w.host w.st delta
    ({host := r.1, st := r.2.1}, r.2.2)
  else if w.st.button_mode ≠ 0 then
    let acts :=
      if w.st.button_mode = LOOP_BUTTON_MASK then
        [Act.globalTransport FPT.HZoomJog (GTArg.int delta) none,
         Act.globalTransport FPT.Jog (GTArg.int 0) none]
      else if w.st.button_mode = REC_BUTTON_MASK then
        horizontal_scroll w.host delta 0
      else if w.st.button_mode = PLAY_BUTTON_MASK then
        [Act.globalTransport FPT.VZoomJog (GTArg.int delta) none]
      else if w.st.button_mode = STOP_BUTTON_MASK then
        [Act.globalTransport FPT.Jog2 (GTArg.int delta) none]
      else if w.st.button_mode = LEFT_BUTTON_MASK then
        [Act.uiSelectWindow (decide (delta < 0))]
      else if w.st.button_mode = RIGHT_BUTTON_MASK then
        [Act.globalTransport FPT.MixerWindowJog (GTArg.int delta) none]
      else []
    ({w with st := {w.st with button_hold_action_committed := true}}, acts)
  else
    (w, [Act.navUpdateValue delta])

/-- Handler `OnPanKnobTurned` (knob controls 16-24). -/
def OnPanKnobTurned (w : W) (ev : MidiEvent) : W × List Act :=
  let idx := ev.controlNum - 16
  let delta := get_knob_delta ev.controlVal
  let s' := {w.st with button_hold_action_committed := true}
  let acts :=
    if w.st.button_mode = LOOP_BUTTON_MASK then
      if idx ≤ 7 then
        let factor : ℚ := 24 * (2 : ℚ) ^ (idx - 3)
        [Act.moveJog (pyint ((delta : ℚ) * factor))]
      else if idx = 8 then [Act.moveJog delta]
      else []
    else if w.st.button_mode = REC_BUTTON_MASK then
      if idx ≤ 6 then horizontal_scroll w.host delta idx else []
    else if w.st.button_mode = 0 then
      [Act.processKnobInput idx delta]
    else []
  ({w with st := s'}, acts)

/-- Modelled from the spec: `MidiEventDispatcher` (module
`arturia_midi`, not part of this repository's sources) routes an event
by an extracted integer key to the handler registered for that exact
key or key range, first checking the entry's filter (default
press-only filter `ignore_release`); an unmatched key or a failed
filter leaves the event unhandled.  The command dispatcher table below
transcribes the `SetHandler` / `SetHandlerForKeys` registrations made
in `ArturiaMidiProcessor.__init__`. -/
def dispatchCommand (env : Env) (w : W) (ev : MidiEvent) : W × List Act :=
  let c := ev.controlNum
  if c = 91 then OnTransportsBack w ev
  else if c = 92 then OnTransportsForward w ev
  else if c = 93 then OnTransportsStop w ev
  else if c = 94 then OnTransportsPausePlay env w ev
  else if c = 95 then OnTransportsRecord w ev
  else if c = 86 then OnTransportsLoop w ev
  else if c = 80 then OnGlobalSave w ev
  else if c = 87 then (if is_pressed ev then OnGlobalIn env w ev else (w, []))
  else if c = 88 then (if is_pressed ev then OnGlobalOut w ev else (w, []))
  else if c = 89 then (if is_pressed ev then OnGlobalMetro w ev else (w, []))
  else if c = 81 then OnGlobalUndo env w ev
  else if 8 ≤ c ∧ c < 16 then (if is_pressed ev then OnTrackSolo w ev else (w, []))
  else if 16 ≤ c ∧ c < 24 then (if is_pressed ev then OnTrackMute w ev else (w, []))
  else if 0 ≤ c ∧ c < 8 then OnTrackRecord env w ev
  else if c = 74 then (if is_pressed ev then OnTrackRead w ev else (w, []))
  else if c = 75 then (if is_pressed ev then OnTrackWrite w ev else (w, []))
  else if c = 98 then OnNavigationLeft env w ev
  else if c = 99 then OnNavigationRight env w ev
  else if c = 84 then (if is_pressed ev then OnNavigationKnobPressed w ev else (w, []))
  else if c = 49 then OnBankNext env w ev
  else if c = 48 then OnBankPrev env w ev
  else if c = 47 then (if is_pressed ev then OnLivePart1 w ev else (w, []))
  else if c = 46 then (if is_pressed ev then OnLivePart2 w ev else (w, []))
  else if 24 ≤ c ∧ c < 32 then (if is_pressed ev then OnBankSelect w ev else (w, []))
  else if 104 ≤ c ∧ c < 112 then OnStartOrEndSliderEvent w ev
  else (w, [])

/-- Modelled from the spec: the knob dispatcher table
(`SetHandlerForKeys(range(16, 25), OnPanKnobTurned)` and
`SetHandler(60, OnNavigationKnobTurned)`). -/
def dispatchKnob (w : W) (ev : MidiEvent) : W × List Act :=
  if 16 ≤ ev.controlNum ∧ ev.controlNum < 25 then OnPanKnobTurned w ev
  else if ev.controlNum = 60 then OnNavigationKnobTurned w ev
  else (w, [])

/-- Handler `OnCommandEvent` (midi id 144): dispatches by control
number; the event object is passed through untouched. -/
def OnCommandEvent (env : Env) (w : W) (ev : MidiEvent) : W × MidiEvent × List Act :=
  let r := dispatchCommand env w ev
  (r.1, ev, r.2)

/-- Handler `OnKnobEvent` (midi id 176): clears the `handled` marker,
then dispatches by control number. -/
def OnKnobEvent (w : W) (ev : MidiEvent) : W × MidiEvent × List Act :=
  let ev' := {ev with handled := false}
  let r := dispatchKnob w ev'
  (r.1, ev', r.2)

/-- Handler `OnSliderEvent` (midi id 224): clears the `handled` marker,
corrects slider bounce on hosts before version 8, and forwards the
slider index and value to the encoder subsystem. -/
def OnSliderEvent (env : Env) (w : W) (ev : MidiEvent) : W × MidiEvent × List Act :=
  let ev' := {ev with handled := false}
  let slider_index := ev'.status - ev'.midiId
  let slider_value := ev'.controlVal
  let slider_value :=
    if env.scriptVersion < 8 ∧ slider_value ≥ 126 then 127 else slider_value
  (w, ev', [Act.processSliderInput slider_index slider_value])

/-- Method `ProcessEvent`: top-level dispatch by midi id. -/
def ProcessEvent (env : Env) (w : W) (ev : MidiEvent) : W × MidiEvent × List Act :=
  if ev.midiId = 144 then OnCommandEvent env w ev
  else if ev.midiId = 176 then OnKnobEvent w ev
  else if ev.midiId = 224 then OnSliderEvent env w ev
  else (w, ev, [])

/-- Modelled from the spec: the `PagedDisplay` component (module
`arturia_display`, not part of this repository's sources).  Per spec
section 4.5, a named page holds two text lines, `SetPageLines`
overwrites a page's lines, and `SetActivePage` makes a page active with
an optional expiry in milliseconds; a new hint replaces any unexpired
one. -/
structure PagedDisplay where
  pageLines : String → String × String
  activePage : String
  expiresMs : Option Int

/-- Effect of one display action on the modelled paged display. -/
def applyDisplayAct (d : PagedDisplay) : Act → PagedDisplay
  | Act.setPageLines page l1 l2 =>
    {d with pageLines := fun p => if p = page then (l1, l2) else d.pageLines p}
  | Act.setActivePage page exp => {d with activePage := page, expiresMs := exp}
  | _ => d

/-- Running `_display_hint(line1, line2)` against the modelled display. -/
def run_display_hint (d : PagedDisplay) (l1 l2 : Option String) : PagedDisplay :=
  (display_hint l1 l2).foldl applyDisplayAct d

/-- Concrete host snapshot used by witnesses and counterexamples. -/
def tHost : Host where
  patternCount := 4
  patternNumber := 2
  patternName := fun i => "Pat" ++ toString i
  patternLength := fun _ => 4
  channelCount := 3
  selectedChannel := 1
  channelName := fun i => "Chan" ++ toString i
  channelColor := fun _ => 0
  trackCount := 5
  trackName := fun i => "Trk" ++ toString i
  isTrackSolo := fun _ => 0
  isTrackMuted := fun _ => 0
  loopMode := 0
  songPos := 0
  visible := fun _ => true
  focused := fun _ => false
  selectionStart := 0
  selectionEnd := 0
  navMode := "Channel"

/-- Concrete environment used by witnesses and counterexamples. -/
def tEnv : Env where
  scriptVersion := 7
  pianoRollFocusCfg := false
  controlsHintsCfg := false
  essentialKeyboard := false
  newTask := 7
  cancelOk := fun t => t == 5
  fromMIDI_Max := 1073741824

/-- Concrete processor state used by witnesses and counterexamples. -/
def tSt : ProcState where
  button_mode := 0
  button_hold_action_committed := false
  pattern_mode_down := false
  playlist_track_updated := false
  is_pad_recording := false
  punched := false
  current_playlist_track_index := 1
  long_press_tasks := []

/-- Concrete world used by witnesses and counterexamples. -/
def tW : W := {host := tHost, st := tSt}

/-- Event fixture for the C8 witness: slider 2, value 126. -/
def c8Ev : MidiEvent where
  midiId := 224
  controlNum := 0
  controlVal := 126
  status := 226
  pmeFlags := 0
  handled := true

/-- Concrete state for the C1 witness: a release of control 81 whose
recorded task 5 cancels successfully, firing the short-press action. -/
def c1W : W := {host := tHost, st := {tSt with long_press_tasks := [(81, 5)]}}

/-- Event fixture for the C1 witness. -/
def c1Ev : MidiEvent where
  midiId := 144
  controlNum := 81
  controlVal := 0
  status := 144
  pmeFlags := 0
  handled := false

/-- Display fixture for the C10 witness. -/
def tDisplay : PagedDisplay where
  pageLines := fun _ => ("", "")
  activePage := "main"
  expiresMs := none

/-- Main-encoder turn event fixture (knob control 60, value 3). -/
def c4Ev : MidiEvent where
  midiId := 176
  controlNum := 60
  controlVal := 3
  status := 176
  pmeFlags := 0
  handled := false

/-- World for the C4 counterexample: no modifier bit set, but the
pattern-mode (Save) button held. -/
def c4W : W := {host := tHost, st := {tSt with pattern_mode_down := true}}

/-- World for the C5 counterexample: loop and record both held
(mask 0x3, equal to no single button constant) with the pattern-mode
button also held. -/
def c5W : W := {host := tHost, st := {tSt with pattern_mode_down := true, button_mode := 3}}

/-- Main-encoder turn event fixture for C5 (knob control 60, value 2). -/
def c5Ev : MidiEvent where
  midiId := 176
  controlNum := 60
  controlVal := 2
  status := 176
  pmeFlags := 0
  handled := false

/-- World for the C5 witness: two transport modifiers held at once
(mask 0x5), pattern mode not active. -/
def c5aW : W := {host := tHost, st := {tSt with button_mode := 5}}

/-- World for the C2 counterexample: pad recording active, no hold
action committed. -/
def c2W : W := {host := tHost, st := {tSt with is_pad_recording := true}}

/-- Release event of the record transport button (control 95). -/
def recRelEv : MidiEvent where
  midiId := 144
  controlNum := 95
  controlVal := 0
  status := 144
  pmeFlags := 0
  handled := false

/-- Release event of the loop transport button (control 86). -/
def loopRelEv : MidiEvent where
  midiId := 144
  controlNum := 86
  controlVal := 0
  status := 144
  pmeFlags := 0
  handled := false

theorem assocLookup_assocSet (m : List (Int × Int)) (k v : Int) :
    assocLookup (assocSet m k v) k = some v := by
  induction m with
  | nil => simp [assocSet, assocLookup]
  | cons hd tl ih =>
    obtain ⟨k', v'⟩ := hd
    by_cases hk : k' = k
    · simp [assocSet, assocLookup, hk]
    · simp [assocSet, assocLookup, hk, ih]

/-- C1: in `_detect_long_press`, a press (nonzero control value)
schedules the long-press callback with a 450 ms delay and records the
pending task under the event's control id; a release (zero control
value) invokes the short-press callback exactly when a task is recorded
for that control id and cancelling it succeeds (the result is then the
short-press continuation's, with the cancellation in front), and
invokes neither callback otherwise (the result is the unchanged state
with at most the failed cancellation call, and nothing is scheduled). -/
theorem c1_detect_long_press_contract (env : Env) (w : W) (ev : MidiEvent)
    (cb : LongCb) (short_fn : W → W × List Act) :
    (ev.controlVal ≠ 0 →
      detect_long_press env w ev cb short_fn =
        ({w with st := {w.st with long_press_tasks := assocSet w.st.long_press_tasks ev.controlNum env.newTask}},
         [Act.scheduleTask env.newTask 450 cb]) ∧
      assocLookup (assocSet w.st.long_press_tasks ev.controlNum env.newTask)
          ev.controlNum = some env.newTask) ∧
    (ev.controlVal = 0 →
      (∀ t, assocLookup w.st.long_press_tasks ev.controlNum = some t →
        env.cancelOk t = true →
        detect_long_press env w ev cb short_fn =
          ((short_fn w).1, Act.cancelTask t :: (short_fn w).2)) ∧
      (∀ t, assocLookup w.st.long_press_tasks ev.controlNum = some t →
        env.cancelOk t = false →
        detect_long_press env w ev cb short_fn = (w, [Act.cancelTask t])) ∧
      (assocLookup w.st.long_press_tasks ev.controlNum = none →
        detect_long_press env w ev cb short_fn = (w, []))) := by
  constructor
  · intro hp
    constructor
    · unfold detect_long_press
      rw [if_pos (by simp [is_pressed, hp])]
    · exact assocLookup_assocSet _ _ _
  · intro hr
    have hnp : is_pressed ev = false := by simp [is_pressed, hr]
    refine ⟨fun t ht hc => ?_, fun t ht hc => ?_, fun ht => ?_⟩
    · unfold detect_long_press
      rw [if_neg (by simp [hnp])]
      simp [ht, hc]
    · unfold detect_long_press
      rw [if_neg (by simp [hnp])]
      simp [ht, hc]
    · unfold detect_long_press
      rw [if_neg (by simp [hnp])]
      simp [ht]

/-- Witness for C1: the release path at a concrete input. -/
theorem c1_detect_long_press_contract_witness :
    detect_long_press tEnv c1W c1Ev LongCb.undoLong (OnGlobalUndoShortPress c1Ev) =
      (c1W, [Act.cancelTask 5,
             Act.globalTransport FPT.Undo (GTArg.fpt FPT.Undo) (some 0)]) :=
  ((c1_detect_long_press_contract tEnv c1W c1Ev LongCb.undoLong
      (OnGlobalUndoShortPress c1Ev)).2 rfl).1 5 rfl rfl

/-- C3: the knob delta decoder follows the signed 7-bit convention:
values 0-63 decode to themselves, values 65-127 decode to the negative
delta `64 - v`, and 64 decodes to 0. -/
theorem c3_knob_delta_signed (v : Int) :
    (0 ≤ v → v ≤ 63 → get_knob_delta v = v) ∧
    (65 ≤ v → v ≤ 127 → get_knob_delta v = 64 - v) ∧
    (v = 64 → get_knob_delta v = 0) := by
  unfold get_knob_delta
  refine ⟨fun h1 h2 => ?_, fun h1 h2 => ?_, fun h => ?_⟩ <;> split <;> omega

/-- Witness for C3 at the concrete counter-clockwise value 100. -/
theorem c3_knob_delta_signed_witness : get_knob_delta 100 = 64 - 100 :=
  (c3_knob_delta_signed 100).2.1 (by decide) (by decide)

/-- C6: the navigation-arrow masks are the literals 0x16 and 0x32;
neither is a power of two (each has at least two bits set, witnessed by
`m &&& (m - 1) ≠ 0` together with the exhaustive check below 2^8), each
overlaps other modifier masks as stated, and therefore the six masks
are not pairwise disjoint. -/
theorem c6_nav_arrow_masks :
    LEFT_BUTTON_MASK = 0x16 ∧ RIGHT_BUTTON_MASK = 0x32 ∧
    LEFT_BUTTON_MASK &&& (LEFT_BUTTON_MASK - 1) ≠ 0 ∧
    RIGHT_BUTTON_MASK &&& (RIGHT_BUTTON_MASK - 1) ≠ 0 ∧
    (∀ k, k < 8 → LEFT_BUTTON_MASK ≠ 2 ^ k) ∧ LEFT_BUTTON_MASK < 2 ^ 8 ∧
    (∀ k, k < 8 → RIGHT_BUTTON_MASK ≠ 2 ^ k) ∧ RIGHT_BUTTON_MASK < 2 ^ 8 ∧
    LEFT_BUTTON_MASK &&& REC_BUTTON_MASK = REC_BUTTON_MASK ∧
    LEFT_BUTTON_MASK &&& PLAY_BUTTON_MASK = PLAY_BUTTON_MASK ∧
    RIGHT_BUTTON_MASK &&& REC_BUTTON_MASK = REC_BUTTON_MASK ∧
    ¬ (∀ m1 ∈ [LOOP_BUTTON_MASK, REC_BUTTON_MASK, PLAY_BUTTON_MASK,
               STOP_BUTTON_MASK, LEFT_BUTTON_MASK, RIGHT_BUTTON_MASK],
       ∀ m2 ∈ [LOOP_BUTTON_MASK, REC_BUTTON_MASK, PLAY_BUTTON_MASK,
               STOP_BUTTON_MASK, LEFT_BUTTON_MASK, RIGHT_BUTTON_MASK],
       m1 = m2 ∨ m1 &&& m2 = 0) := by
  decide

/-- C8: for every slider event, on a host script version below 8 a
control value of 126 or more is forwarded to the encoder subsystem as
127, any smaller value is forwarded unchanged; on version 8 or above
the control value is always forwarded unchanged. -/
theorem c8_slider_version_clamp (env : Env) (w : W) (ev : MidiEvent) :
    (env.scriptVersion < 8 → 126 ≤ ev.controlVal →
      (OnSliderEvent env w ev).2.2 =
        [Act.processSliderInput (ev.status - ev.midiId) 127]) ∧
    (env.scriptVersion < 8 → ev.controlVal < 126 →
      (OnSliderEvent env w ev).2.2 =
        [Act.processSliderInput (ev.status - ev.midiId) ev.controlVal]) ∧
    (8 ≤ env.scriptVersion →
      (OnSliderEvent env w ev).2.2 =
        [Act.processSliderInput (ev.status - ev.midiId) ev.controlVal]) := by
  unfold OnSliderEvent
  refine ⟨fun h1 h2 => ?_, fun h1 h2 => ?_, fun h1 => ?_⟩
  · simp only []
    rw [if_pos ⟨h1, h2⟩]
  · simp only []
    rw [if_neg (by omega)]
  · simp only []
    rw [if_neg (by omega)]

/-- Witness for C8: on host version 7 the value 126 goes out as 127. -/
theorem c8_slider_version_clamp_witness :
    (OnSliderEvent tEnv tW c8Ev).2.2 =
      [Act.processSliderInput (c8Ev.status - c8Ev.midiId) 127] :=
  (c8_slider_version_clamp tEnv tW c8Ev).1 (by decide) (by decide)

/-- C9: `OnKnobEvent` and `OnSliderEvent` hand on the event with the
`handled` marker set to `False` and every other field untouched, for
every event of their class (matched by a control-number handler or
not), while `OnCommandEvent` passes the event through entirely
untouched. -/
theorem c9_handled_marker (env : Env) (w : W) (ev : MidiEvent) :
    (OnKnobEvent w ev).2.1 = {ev with handled := false} ∧
    (OnSliderEvent env w ev).2.1 = {ev with handled := false} ∧
    (OnCommandEvent env w ev).2.1 = ev :=
  ⟨rfl, rfl, rfl⟩

/-- C10: `_display_hint` replaces each omitted line by a single space
(so a provided non-empty line or an omitted line always yields a
non-empty hint line), writes both lines to the page named `hint`,
activates that page with an expiry of exactly 1500 ms, and a later call
overwrites the hint's lines and restarts the 1500 ms expiry. -/
theorem c10_display_hint_behaviour (d : PagedDisplay) (l1 l2 : Option String) :
    (run_display_hint d l1 l2).pageLines "hint" = (l1.getD " ", l2.getD " ") ∧
    (l1 = none → ((run_display_hint d l1 l2).pageLines "hint").1 = " ") ∧
    (l2 = none → ((run_display_hint d l1 l2).pageLines "hint").2 = " ") ∧
    ((∀ s, l1 = some s → s ≠ "") → ((run_display_hint d l1 l2).pageLines "hint").1 ≠ "") ∧
    ((∀ s, l2 = some s → s ≠ "") → ((run_display_hint d l1 l2).pageLines "hint").2 ≠ "") ∧
    (run_display_hint d l1 l2).activePage = "hint" ∧
    (run_display_hint d l1 l2).expiresMs = some 1500 ∧
    (∀ l1' l2',
      (run_display_hint (run_display_hint d l1 l2) l1' l2').pageLines "hint" =
        (l1'.getD " ", l2'.getD " ") ∧
      (run_display_hint (run_display_hint d l1 l2) l1' l2').expiresMs = some 1500) := by
  have hl : ∀ (d' : PagedDisplay) (a b : Option String),
      (run_display_hint d' a b).pageLines "hint" = (a.getD " ", b.getD " ") ∧
      (run_display_hint d' a b).activePage = "hint" ∧
      (run_display_hint d' a b).expiresMs = some 1500 := by
    intro d' a b
    simp [run_display_hint, display_hint, applyDisplayAct]
  refine ⟨(hl d l1 l2).1, ?_, ?_, ?_, ?_, (hl d l1 l2).2.1, (hl d l1 l2).2.2,
    fun l1' l2' => ⟨(hl _ l1' l2').1, (hl _ l1' l2').2.2⟩⟩
  · intro h
    rw [(hl d l1 l2).1, h]
    rfl
  · intro h
    rw [(hl d l1 l2).1, h]
    rfl
  · intro h
    rw [(hl d l1 l2).1]
    cases l1 with
    | none => simp
    | some s => simpa using h s rfl
  · intro h
    rw [(hl d l1 l2).1]
    cases l2 with
    | none => simp
    | some s => simpa using h s rfl

/-- Witness for C10: an omitted first line and a provided second line at
a concrete display state give a non-empty first hint line. -/
theorem c10_display_hint_behaviour_witness :
    ((run_display_hint tDisplay none (some "Knob press")).pageLines "hint").1 ≠ "" :=
  (c10_display_hint_behaviour tDisplay none (some "Knob press")).2.2.2.1
    (fun s h => nomatch h)

/-- Counterexample for C4 as stated: with an empty modifier mask but the
pattern-mode button held, the decoded delta is not forwarded to the
navigation mode's turn handler. -/
theorem c4_counterexample :
    c4W.st.button_mode = 0 ∧
    Act.navUpdateValue (get_knob_delta c4Ev.controlVal) ∉
      (OnNavigationKnobTurned c4W c4Ev).2 := by
  decide

/-- C4 (amended): for every main-encoder turn event, when no modifier
bit is set in the button mask AND the pattern-mode (Save) button is not
held, the decoded delta is forwarded to the active navigation mode's
turn-handler and nothing else happens; in particular the
hold-action-committed flag keeps its value. -/
theorem c4_nav_knob_default_route (w : W) (ev : MidiEvent)
    (h1 : w.st.pattern_mode_down = false) (h2 : w.st.button_mode = 0) :
    OnNavigationKnobTurned w ev = (w, [Act.navUpdateValue (get_knob_delta ev.controlVal)]) ∧
    (OnNavigationKnobTurned w ev).1.st.button_hold_action_committed =
      w.st.button_hold_action_committed := by
  have heq : OnNavigationKnobTurned w ev =
      (w, [Act.navUpdateValue (get_knob_delta ev.controlVal)]) := by
    unfold OnNavigationKnobTurned
    simp [h1, h2]
  exact ⟨heq, by rw [heq]⟩

/-- Witness for the amended C4 at a concrete quiescent state. -/
theorem c4_nav_knob_default_route_witness :
    OnNavigationKnobTurned tW c4Ev = (tW, [Act.navUpdateValue (get_knob_delta c4Ev.controlVal)]) ∧
    (OnNavigationKnobTurned tW c4Ev).1.st.button_hold_action_committed =
      tW.st.button_hold_action_committed :=
  c4_nav_knob_default_route tW c4Ev rfl rfl

/-- Every action emitted by `_horizontal_scroll` is a song-position
update or the plain jog command. -/
theorem mem_horizontal_scroll (h : Host) (δ p : Int) (a : Act)
    (ha : a ∈ horizontal_scroll h δ p) :
    (∃ q, a = Act.setSongPos q) ∨ a = Act.globalTransport FPT.Jog (GTArg.int δ) none := by
  unfold horizontal_scroll OnUpdateTimeMarker at ha
  split_ifs at ha <;> simp at ha <;> simp [ha]

/-- Counterexample for C5 as stated: a nonzero mask matching none of the
button constants for which the hold-action-committed flag is NOT set to
true, because the pattern-mode branch preempts the modifier branch. -/
theorem c5_counterexample :
    c5W.st.button_mode ≠ 0 ∧
    c5W.st.button_mode ∉ [LOOP_BUTTON_MASK, REC_BUTTON_MASK, PLAY_BUTTON_MASK,
      STOP_BUTTON_MASK, LEFT_BUTTON_MASK, RIGHT_BUTTON_MASK] ∧
    (OnNavigationKnobTurned c5W c5Ev).1.st.button_hold_action_committed = false := by
  decide

/-- C5 (amended): provided the pattern-mode (Save) button is not held,
the main-encoder remap branches test the modifier mask by exact
equality against a single button constant - horizontal zoom fires iff
the mask equals the loop constant, the record constant routes the turn
to `_horizontal_scroll`, vertical zoom fires iff the mask equals the
play constant, jog (`FPT_Jog2`) fires iff the mask equals the stop
constant - and when the mask is nonzero but equal to none of the
constants no command fires at all, while any nonzero mask still sets
the hold-action-committed flag to true. -/
theorem c5_nav_knob_remap_exact_equality (w : W) (ev : MidiEvent)
    (hp : w.st.pattern_mode_down = false) :
    (Act.globalTransport FPT.HZoomJog (GTArg.int (get_knob_delta ev.controlVal)) none ∈
        (OnNavigationKnobTurned w ev).2 ↔ w.st.button_mode = LOOP_BUTTON_MASK) ∧
    (w.st.button_mode = REC_BUTTON_MASK →
      (OnNavigationKnobTurned w ev).2 =
        horizontal_scroll w.host (get_knob_delta ev.controlVal) 0) ∧
    (Act.globalTransport FPT.VZoomJog (GTArg.int (get_knob_delta ev.controlVal)) none ∈
        (OnNavigationKnobTurned w ev).2 ↔ w.st.button_mode = PLAY_BUTTON_MASK) ∧
    (Act.globalTransport FPT.Jog2 (GTArg.int (get_knob_delta ev.controlVal)) none ∈
        (OnNavigationKnobTurned w ev).2 ↔ w.st.button_mode = STOP_BUTTON_MASK) ∧
    (w.st.button_mode ≠ 0 →
      w.st.button_mode ∉ [LOOP_BUTTON_MASK, REC_BUTTON_MASK, PLAY_BUTTON_MASK,
        STOP_BUTTON_MASK, LEFT_BUTTON_MASK, RIGHT_BUTTON_MASK] →
      (OnNavigationKnobTurned w ev).2 = []) ∧
    (w.st.button_mode ≠ 0 →
      (OnNavigationKnobTurned w ev).1.st.button_hold_action_committed = true) := by
  unfold OnNavigationKnobTurned
  simp only [hp, Bool.false_eq_true, if_false]
  by_cases h0 : w.st.button_mode = 0
  · simp [h0, LOOP_BUTTON_MASK, REC_BUTTON_MASK, PLAY_BUTTON_MASK, STOP_BUTTON_MASK]
  · rw [if_pos h0]
    by_cases hL : w.st.button_mode = LOOP_BUTTON_MASK
    · simp [hL, LOOP_BUTTON_MASK, REC_BUTTON_MASK, PLAY_BUTTON_MASK, STOP_BUTTON_MASK]
    · rw [if_neg hL]
      by_cases hR : w.st.button_mode = REC_BUTTON_MASK
      · rw [if_pos hR]
        refine ⟨?_, fun _ => rfl, ?_, ?_, ?_, fun _ => rfl⟩
        · constructor
          · intro hmem
            rcases mem_horizontal_scroll _ _ _ _ hmem with ⟨q, hq⟩ | hq <;> simp at hq
          · intro hc
            rw [hR] at hc
            simp [REC_BUTTON_MASK, LOOP_BUTTON_MASK] at hc
        · constructor
          · intro hmem
            rcases mem_horizontal_scroll _ _ _ _ hmem with ⟨q, hq⟩ | hq <;> simp at hq
          · intro hc
            rw [hR] at hc
            simp [REC_BUTTON_MASK, PLAY_BUTTON_MASK] at hc
        · constructor
          · intro hmem
            rcases mem_horizontal_scroll _ _ _ _ hmem with ⟨q, hq⟩ | hq <;> simp at hq
          · intro hc
            rw [hR] at hc
            simp [REC_BUTTON_MASK, STOP_BUTTON_MASK] at hc
        · intro _ hnot
          exact absurd (by simp [hR]) hnot
      · rw [if_neg hR]
        by_cases hP : w.st.button_mode = PLAY_BUTTON_MASK
        · simp [hP, LOOP_BUTTON_MASK, REC_BUTTON_MASK, PLAY_BUTTON_MASK, STOP_BUTTON_MASK]
        · rw [if_neg hP]
          by_cases hS : w.st.button_mode = STOP_BUTTON_MASK
          · simp [hS, LOOP_BUTTON_MASK, REC_BUTTON_MASK, PLAY_BUTTON_MASK, STOP_BUTTON_MASK]
          · rw [if_neg hS]
            by_cases hLe : w.st.button_mode = LEFT_BUTTON_MASK
            · simp [hLe, hL, hR, hP, hS, LOOP_BUTTON_MASK, REC_BUTTON_MASK,
                PLAY_BUTTON_MASK, STOP_BUTTON_MASK, LEFT_BUTTON_MASK, RIGHT_BUTTON_MASK]
            · rw [if_neg hLe]
              by_cases hRi : w.st.button_mode = RIGHT_BUTTON_MASK
              · simp [hRi, hL, hR, hP, hS, LOOP_BUTTON_MASK, REC_BUTTON_MASK,
                  PLAY_BUTTON_MASK, STOP_BUTTON_MASK, LEFT_BUTTON_MASK, RIGHT_BUTTON_MASK]
              · rw [if_neg hRi]
                simp [hL, hR, hP, hS, hLe, hRi]

/-- Witness for the amended C5: mask 0x5 fires no remap command but
still commits the hold action. -/
theorem c5_nav_knob_remap_exact_equality_witness :
    (OnNavigationKnobTurned c5aW c5Ev).2 = [] ∧
    (OnNavigationKnobTurned c5aW c5Ev).1.st.button_hold_action_committed = true :=
  ⟨(c5_nav_knob_remap_exact_equality c5aW c5Ev rfl).2.2.2.2.1 (by decide) (by decide),
   (c5_nav_knob_remap_exact_equality c5aW c5Ev rfl).2.2.2.2.2 (by decide)⟩

/-- Counterexample for C2 as stated: on the record button's release with
no hold action committed, the default release action `transport.record()`
is nevertheless not performed, because pad recording is active. -/
theorem c2_counterexample :
    c2W.st.button_hold_action_committed = false ∧
    Act.transportRecord ∉ (OnTransportsRecord c2W recRelEv).2 := by
  decide

/-- C2 (amended): for the loop, record, play and stop transport buttons,
the press handler sets the button's bit in the modifier mask and resets
the hold-action-committed flag; the release handler clears the bit and
performs the button's own default release action (FPT_LoopRecord for
loop, transport record for record, FPT_Play for play, transport stop
for stop) exactly once iff no hold action was committed while held -
except that the record button's default action additionally requires
pad recording to be inactive. -/
theorem c2_transport_buttons (env : Env) (w : W) (ev : MidiEvent) :
    (ev.controlVal ≠ 0 →
      (OnTransportsLoop w ev).1.st.button_mode = w.st.button_mode ||| LOOP_BUTTON_MASK ∧
      (OnTransportsLoop w ev).1.st.button_hold_action_committed = false) ∧
    (ev.controlVal = 0 →
      (OnTransportsLoop w ev).1.st.button_mode = andNot w.st.button_mode LOOP_BUTTON_MASK ∧
      (OnTransportsLoop w ev).2.count
          (Act.globalTransport FPT.LoopRecord (GTArg.fpt FPT.LoopRecord) (some ev.pmeFlags)) =
        (if w.st.button_hold_action_committed then 0 else 1)) ∧
    (ev.controlVal ≠ 0 →
      (OnTransportsRecord w ev).1.st.button_mode = w.st.button_mode ||| REC_BUTTON_MASK ∧
      (OnTransportsRecord w ev).1.st.button_hold_action_committed = false) ∧
    (ev.controlVal = 0 →
      (OnTransportsRecord w ev).1.st.button_mode = andNot w.st.button_mode REC_BUTTON_MASK ∧
      (OnTransportsRecord w ev).2.count Act.transportRecord =
        (if w.st.button_hold_action_committed || w.st.is_pad_recording then 0 else 1)) ∧
    (ev.controlVal ≠ 0 →
      (OnTransportsPausePlay env w ev).1.st.button_mode = w.st.button_mode ||| PLAY_BUTTON_MASK ∧
      (OnTransportsPausePlay env w ev).1.st.button_hold_action_committed = false) ∧
    (ev.controlVal = 0 →
      (OnTransportsPausePlay env w ev).1.st.button_mode = andNot w.st.button_mode PLAY_BUTTON_MASK ∧
      (OnTransportsPausePlay env w ev).2.count
          (Act.globalTransport FPT.Play (GTArg.fpt FPT.Play) (some ev.pmeFlags)) =
        (if w.st.button_hold_action_committed then 0 else 1)) ∧
    (ev.controlVal ≠ 0 →
      (OnTransportsStop w ev).1.st.button_mode = w.st.button_mode ||| STOP_BUTTON_MASK ∧
      (OnTransportsStop w ev).1.st.button_hold_action_committed = false) ∧
    (ev.controlVal = 0 →
      (OnTransportsStop w ev).1.st.button_mode = andNot w.st.button_mode STOP_BUTTON_MASK ∧
      (OnTransportsStop w ev).2.count Act.transportStop =
        (if w.st.button_hold_action_committed then 0 else 1)) := by
  refine ⟨fun hp => ?_, fun hr => ?_, fun hp => ?_, fun hr => ?_,
    fun hp => ?_, fun hr => ?_, fun hp => ?_, fun hr => ?_⟩
  · unfold OnTransportsLoop
    rw [if_pos (by simp [is_pressed, hp])]
    exact ⟨rfl, rfl⟩
  · unfold OnTransportsLoop
    rw [if_neg (by simp [is_pressed, hr])]
    by_cases hc : w.st.button_hold_action_committed <;>
      simp [hc, List.count_cons, List.count_nil]
  · unfold OnTransportsRecord
    rw [if_pos (by simp [is_pressed, hp])]
    exact ⟨rfl, rfl⟩
  · unfold OnTransportsRecord
    rw [if_neg (by simp [is_pressed, hr])]
    by_cases hc : w.st.button_hold_action_committed <;>
      by_cases hpad : w.st.is_pad_recording <;>
      simp [hc, hpad, List.count_cons, List.count_nil]
  · unfold OnTransportsPausePlay
    rw [if_pos (by simp [is_pressed, hp])]
    exact ⟨rfl, rfl⟩
  · unfold OnTransportsPausePlay
    rw [if_neg (by simp [is_pressed, hr])]
    by_cases hc : w.st.button_hold_action_committed
    · simp [hc, List.count_nil]
    · rw [if_neg (by simp [hc])]
      refine ⟨rfl, ?_⟩

      rw [List.count_append]
      have hfocus : ∀ (wd : Window), (show_and_focus w.host wd).count
          (Act.globalTransport FPT.Play (GTArg.fpt FPT.Play) (some ev.pmeFlags)) = 0 := by
        intro wd
        unfold show_and_focus
        split_ifs <;> simp [List.count_cons, List.count_nil, List.count_append]
      split_ifs with h1 h2 <;>
        simp [hfocus, List.count_cons, List.count_nil]
  · unfold OnTransportsStop
    rw [if_pos (by simp [is_pressed, hp])]
    exact ⟨rfl, rfl⟩
  · unfold OnTransportsStop
    rw [if_neg (by simp [is_pressed, hr])]
    by_cases hc : w.st.button_hold_action_committed <;>
      simp [hc, List.count_cons, List.count_nil, List.count_append]

/-- Witness for the amended C2: a loop release with no hold action
committed fires the loop button's default release action exactly once. -/
theorem c2_transport_buttons_witness :
    (OnTransportsLoop tW loopRelEv).2.count
        (Act.globalTransport FPT.LoopRecord (GTArg.fpt FPT.LoopRecord) (some loopRelEv.pmeFlags)) =
      (if tW.st.button_hold_action_committed then 0 else 1) :=
  ((c2_transport_buttons tEnv tW loopRelEv).2.1 rfl).2

theorem mem_pyRange {i a b : Int} (h : i ∈ pyRange a b) : a ≤ i ∧ i < b := by
  unfold pyRange at h
  rw [List.mem_map] at h
  obtain ⟨k, hk, hv⟩ := h
  rw [List.mem_range] at hk
  omega

theorem select_pattern_named_patternCount (h : Host) (name : String) :
    (select_pattern_named h name).1.patternCount = h.patternCount := by
  unfold select_pattern_named
  split <;> rfl

theorem jump_mem_select_pattern_named {h : Host} {name : String} {i : Int}
    (hm : Act.jumpToPattern i ∈ (select_pattern_named h name).2) :
    1 ≤ i ∧ i ≤ h.patternCount := by
  unfold select_pattern_named at hm
  split at hm
  case h_1 j hj =>
    simp only [List.mem_singleton, Act.jumpToPattern.injEq] at hm
    subst hm
    have hmem := List.mem_of_find?_eq_some hj
    have := mem_pyRange hmem
    omega
  case h_2 => simp at hm

theorem deselect_tracks_spec (l : List Int) (h : Host) :
    (deselect_tracks h l).1.patternCount = h.patternCount ∧
    (deselect_tracks h l).1.patternName = h.patternName ∧
    ∀ a ∈ (deselect_tracks h l).2, ∃ j nm, a = Act.setTrackName j nm := by
  induction l generalizing h with
  | nil => simp [deselect_tracks]
  | cons i rest ih =>
    simp only [deselect_tracks]
    split_ifs with hs
    · refine ⟨(ih _).1, (ih _).2.1, ?_⟩
      intro a ha
      rcases List.mem_cons.mp ha with h2 | h2
      · exact ⟨i, _, h2⟩
      · exact (ih _).2.2 a h2
    · exact ih h

theorem select_playlist_track_spec (h : Host) (s : ProcState) (t : Int) :
    (select_playlist_track h s t).2.1.current_playlist_track_index = t ∧
    ∀ i, Act.jumpToPattern i ∈ (select_playlist_track h s t).2.2 →
      1 ≤ i ∧ i ≤ h.patternCount := by
  simp only [select_playlist_track]
  split_ifs with hs
  · simp
  · refine ⟨rfl, fun i hm => ?_⟩
    simp only [List.mem_append, List.mem_singleton] at hm
    rcases hm with (hm | hm) | hm
    · obtain ⟨j, nm, hja⟩ := (deselect_tracks_spec _ _).2.2 _ hm
      exact absurd hja (by simp)
    · have hc : (deselect_all_playlist_track h).1.patternCount = h.patternCount :=
        (deselect_tracks_spec (pyRange 1 h.trackCount) h).1
      have hb := jump_mem_select_pattern_named hm
      rw [hc] at hb
      exact hb
    · exact absurd hm (by simp)

theorem select_playlist_track_named_jump (h : Host) (s : ProcState) (name : String) :
    ∀ i, Act.jumpToPattern i ∈ (select_playlist_track_named h s name).2.2 →
      1 ≤ i ∧ i ≤ h.patternCount := by
  unfold select_playlist_track_named
  split
  case h_1 j hj => exact (select_playlist_track_spec h s j).2
  case h_2 => simp

theorem select_one_channel_shape (env : Env) (h : Host) (index : Int) :
    ∀ a ∈ (select_one_channel env h index).2,
      a = Act.selectOneChannel index ∨ a = Act.deselectAllChannels ∨
      a = Act.selectChannel index 1 ∨ ∃ m, a = Act.setHintMsg m := by
  intro a ha
  simp only [select_one_channel] at ha
  split_ifs at ha <;>
    simp only [List.mem_append, List.mem_cons, List.mem_singleton,
      List.not_mem_nil, or_false] at ha <;>
    tauto

/-- C7: index arithmetic clamps instead of going out of range.
`clip(low, high, x)` lies in `[low, high]` whenever `low ≤ high`; with a
nonempty pattern collection every pattern index `OnUpdatePattern` jumps
to lies in `[1, patternCount]`; with a nonempty channel collection every
channel index `OnUpdateChannel` selects lies in `[0, channelCount - 1]`;
with a nonempty playlist `OnUpdatePlaylistTrack` selects a track in
`[1, trackCount]`. -/
theorem c7_index_clamping :
    (∀ (low high x : Int), low ≤ high →
      low ≤ clip low high x ∧ clip low high x ≤ high) ∧
    (∀ (h : Host) (s : ProcState) (delta : Int), 1 ≤ h.patternCount →
      ∀ i, Act.jumpToPattern i ∈ (OnUpdatePattern h s delta).2.2 →
        1 ≤ i ∧ i ≤ h.patternCount) ∧
    (∀ (env : Env) (h : Host) (delta : Int), 1 ≤ h.channelCount →
      (∀ i, Act.selectOneChannel i ∈ (OnUpdateChannel env h delta).2 →
        0 ≤ i ∧ i ≤ h.channelCount - 1) ∧
      (∀ i v, Act.selectChannel i v ∈ (OnUpdateChannel env h delta).2 →
        0 ≤ i ∧ i ≤ h.channelCount - 1)) ∧
    (∀ (h : Host) (s : ProcState) (delta : Int), 1 ≤ h.trackCount →
      1 ≤ (OnUpdatePlaylistTrack h s delta).2.1.current_playlist_track_index ∧
      (OnUpdatePlaylistTrack h s delta).2.1.current_playlist_track_index ≤ h.trackCount) := by
  have hclip : ∀ (low high x : Int), low ≤ high →
      low ≤ clip low high x ∧ clip low high x ≤ high := by
    intro low high x hlh
    exact ⟨le_max_left _ _, max_le hlh (min_le_left _ _)⟩
  refine ⟨hclip, ?_, ?_, ?_⟩
  · intro h s delta hpc i hm
    simp only [OnUpdatePattern, jump_and_sync_select_pattern] at hm
    rcases List.mem_cons.mp hm with h2 | h2
    · obtain rfl := (Act.jumpToPattern.injEq _ _).mp h2
      exact hclip 1 h.patternCount _ hpc
    · exact select_playlist_track_named_jump
        {h with patternNumber := clip 1 h.patternCount (h.patternNumber + delta)} s
        (strip_pattern_name (h.patternName (clip 1 h.patternCount (h.patternNumber + delta)))) i h2
  · intro env h delta hcc
    have hbound := hclip 0 (h.channelCount - 1) (h.selectedChannel + delta) (by omega)
    constructor
    · intro i hm
      simp only [OnUpdateChannel] at hm
      rcases select_one_channel_shape env _ _ _ hm with h2 | h2 | h2 | ⟨m, h2⟩
      · obtain rfl := (Act.selectOneChannel.injEq _ _).mp h2
        exact hbound
      · exact Act.noConfusion h2
      · exact Act.noConfusion h2
      · exact Act.noConfusion h2
    · intro i v hm
      simp only [OnUpdateChannel] at hm
      rcases select_one_channel_shape env _ _ _ hm with h2 | h2 | h2 | ⟨m, h2⟩
      · exact Act.noConfusion h2
      · exact Act.noConfusion h2
      · obtain ⟨rfl, rfl⟩ := (Act.selectChannel.injEq _ _ _ _).mp h2
        exact hbound
      · exact Act.noConfusion h2
  · intro h s delta htc
    simp only [OnUpdatePlaylistTrack]
    rw [(select_playlist_track_spec h s _).1]
    exact ⟨le_max_left _ _, max_le htc (min_le_left _ _)⟩

/-- Witness for C7: a huge positive delta on the concrete host clamps
the playlist track selection to the top of the range. -/
theorem c7_index_clamping_witness :
    1 ≤ (OnUpdatePlaylistTrack tHost tSt 100).2.1.current_playlist_track_index ∧
    (OnUpdatePlaylistTrack tHost tSt 100).2.1.current_playlist_track_index ≤ tHost.trackCount :=
  c7_index_clamping.2.2.2 tHost tSt 100 (by decide)
